import Mathlib

/-!
Verification of the gokrazy/kernel build orchestration.

The development shallowly embeds the three components of the repository:

* the host orchestrator `cmd/gokr-rebuild-kernel/kernel.go` (`kmain` below),
  together with the signal-handling orchestrator variant shipped as an
  additional source file of the repository (`smain` below);
* the container recipe rendering of the `dockerFileContents` template
  (`renderLines` / `dockerFileRender` below);
* the in-container build drivers `cmd/gokr-build-kernel/build.go` and
  `cmd/gokr-build-uboot/build.go` (`dmain`, `downloadKernel`,
  `applyPatchesOrder`, `copyFile` below).

External effects (process spawning, the filesystem, HTTP) are modelled by
environment records whose fields record the outcome of each external call,
and Go control flow is translated step by step.  Two facts of Go semantics
are load-bearing and are modelled explicitly where they occur:
`log.Fatal` calls `os.Exit`, which terminates the process WITHOUT running
deferred functions; and `filepath.Glob` returns its matches sorted
bytewise ascending.
-/

/-- Bytewise (for ASCII names, also codepointwise) lexicographic ordering of
character lists; this is the string order Go uses when `filepath.Glob`
sorts its matches. -/
def charListLe : List Char → List Char → Bool
  | [], _ => true
  | _ :: _, [] => false
  | a :: as, b :: bs => if a < b then true else if b < a then false else charListLe as bs

/-- The Go string ordering, lifted to Lean strings via their character data. -/
def goStrLe (a b : String) : Bool := charListLe a.data b.data

theorem charListLe_total : ∀ as bs : List Char,
    charListLe as bs = true ∨ charListLe bs as = true
  | [], _ => Or.inl rfl
  | _ :: _, [] => Or.inr rfl
  | a :: as, b :: bs => by
    rcases lt_trichotomy a b with hab | rfl | hba
    · exact Or.inl (by simp [charListLe, hab])
    · rcases charListLe_total as bs with h | h
      · exact Or.inl (by simpa [charListLe] using h)
      · exact Or.inr (by simpa [charListLe] using h)
    · exact Or.inr (by simp [charListLe, hba])

theorem charListLe_trans : ∀ as bs cs : List Char,
    charListLe as bs = true → charListLe bs cs = true → charListLe as cs = true
  | [], _, _, _, _ => rfl
  | _ :: _, [], _, h1, _ => by simp [charListLe] at h1
  | _ :: _, _ :: _, [], _, h2 => by simp [charListLe] at h2
  | a :: as, b :: bs, c :: cs, h1, h2 => by
    rcases lt_trichotomy a b with hab | rfl | hba
    · rcases lt_trichotomy b c with hbc | rfl | hcb
      · simp [charListLe, lt_trans hab hbc]
      · simp [charListLe, hab]
      · simp [charListLe, hcb, lt_asymm hcb] at h2
    · rcases lt_trichotomy a c with hac | rfl | hca
      · simp [charListLe, hac]
      · simp [charListLe]
        exact charListLe_trans as bs cs
          (by simpa [charListLe, lt_irrefl] using h1)
          (by simpa [charListLe, lt_irrefl] using h2)
      · simp [charListLe, hca, lt_asymm hca] at h2
    · simp [charListLe, hba, lt_asymm hba] at h1

instance : IsTotal String (fun a b => goStrLe a b = true) :=
  ⟨fun a b => charListLe_total a.data b.data⟩

instance : IsTrans String (fun a b => goStrLe a b = true) :=
  ⟨fun a b c => charListLe_trans a.data b.data c.data⟩

/-- Sorting a list of strings into the Go bytewise ascending order; this is the
order in which `filepath.Glob` reports its matches. -/
def sortStr (l : List String) : List String :=
  List.insertionSort (fun a b => goStrLe a b = true) l

/-- Boolean test that `p` is a leading substring of `s` (Go `strings.HasPrefix`). -/
def strLeads (p s : String) : Bool := p.data.isPrefixOf s.data

/-- Boolean test that `p` is a trailing substring of `s` (Go `strings.HasSuffix`). -/
def strEnds (p s : String) : Bool := p.data.isSuffixOf s.data

/-- A directory entry matches the shell pattern used by the driver
`filepath.Glob` calls exactly when its name ends in the pattern's fixed
trailing part (directory entries never contain a path separator, and the
star matches any leading run of characters). -/
def matchesPatchGlob (name : String) : Bool := strEnds ".patch" name

/-- The ordered patch list declared in `cmd/gokr-rebuild-kernel/kernel.go`
(variable `patchFiles`). -/
def patchFiles : List String :=
  ["0001-Revert-add-index-to-the-ethernet-alias.patch",
   "0201-enable-spidev.patch",
   "0001-gokrazy-logo.patch"]

/-- The fixed lines of the `dockerFileContents` template that precede the
per-patch copy-in block (the template string starts with a newline, so the
first rendered line is empty). -/
def headerLines : List String :=
  ["",
   "FROM debian:buster",
   "",
   "RUN apt-get update && apt-get install -y crossbuild-essential-arm64 bc libssl-dev bison flex kmod python3",
   "",
   "COPY gokr-build-kernel /usr/bin/gokr-build-kernel"]

/-- The copy-in line the template range block renders for one patch path. -/
def copyLine (p : String) : String := "COPY " ++ p ++ " /usr/src/" ++ p

/-- The first physical line of the user-creation RUN instruction (it ends in a
line continuation backslash). -/
def echoLine (uid gid : String) : String :=
  "RUN echo \x27builduser:x:" ++ uid ++ ":" ++ gid ++
    ":nobody:/:/bin/sh\x27 >> /etc/passwd && \\"

/-- The second physical line of the user-creation RUN instruction. -/
def chownLine (uid gid : String) : String :=
  "    chown -R " ++ uid ++ ":" ++ gid ++ " /usr/src"

/-- The lines of the `dockerFileContents` template that follow the per-patch
copy-in block.  The trailing empty string is the final newline of the
template. -/
def tailLines (uid gid : String) : List String :=
  ["",
   echoLine uid gid,
   chownLine uid gid,
   "",
   "USER builduser",
   "WORKDIR /usr/src",
   "ENTRYPOINT /usr/bin/gokr-build-kernel"]

/-- The rendered recipe, line by line: executing `dockerFileTmpl` on
`(uid, gid, patches)`.  The leading trim markers of the range block remove the
newline before each action, so each patch contributes exactly one line. -/
def renderLines (patches : List String) (uid gid : String) : List String :=
  headerLines ++ patches.map copyLine ++ (tailLines uid gid ++ [""])

/-- The rendered recipe as one string, newline-joined; byte-for-byte the text
`dockerFileTmpl.Execute` writes to the Dockerfile. -/
def dockerFileRender (patches : List String) (uid gid : String) : String :=
  String.intercalate "\n" (renderLines patches uid gid)

theorem isPrefixOf_append_self : ∀ (l t : List Char), l.isPrefixOf (l ++ t) = true
  | [], _ => by simp [List.isPrefixOf]
  | a :: as, t => by simp [List.isPrefixOf, isPrefixOf_append_self as t]

theorem isPrefixOf_cons_ne (a b : Char) (h : a ≠ b) (as bs : List Char) :
    (a :: as).isPrefixOf (b :: bs) = false := by
  simp [List.isPrefixOf, h]

theorem echoLine_not_copy (uid gid : String) :
    strLeads "COPY " (echoLine uid gid) = false := by
  unfold strLeads echoLine
  have h1 : ("COPY " : String).data = 'C' :: ("OPY " : String).data := rfl
  have h2 : ("RUN echo \x27builduser:x:" : String).data =
      'R' :: ("UN echo \x27builduser:x:" : String).data := rfl
  simp only [String.data_append, h1, h2, List.cons_append]
  exact isPrefixOf_cons_ne _ _ (by decide) _ _

theorem chownLine_not_copy (uid gid : String) :
    strLeads "COPY " (chownLine uid gid) = false := by
  unfold strLeads chownLine
  have h1 : ("COPY " : String).data = 'C' :: ("OPY " : String).data := rfl
  have h2 : ("    chown -R " : String).data =
      ' ' :: ("   chown -R " : String).data := rfl
  simp only [String.data_append, h1, h2, List.cons_append]
  exact isPrefixOf_cons_ne _ _ (by decide) _ _

/-- A line of the rendered recipe is a patch copy-in line when it starts with
the copy keyword and names a patch file; all other rendered lines fail this
test, whatever uid/gid are rendered in. -/
def isCopyInLine (l : String) : Bool := strLeads "COPY " l && strEnds ".patch" l

theorem copyLine_isCopyIn (p : String) (hp : strEnds ".patch" p = true) :
    isCopyInLine (copyLine p) = true := by
  unfold isCopyInLine
  rw [Bool.and_eq_true]
  constructor
  · unfold strLeads copyLine
    simp only [String.data_append, List.append_assoc]
    exact isPrefixOf_append_self _ _
  · unfold strEnds at hp ⊢
    rw [List.isSuffixOf_iff_suffix] at hp ⊢
    refine hp.trans ?_
    unfold copyLine
    rw [String.data_append]
    exact List.suffix_append _ _

theorem tailLines_filter_empty (uid gid : String) :
    ((tailLines uid gid ++ [""]).filter isCopyInLine) = [] := by
  have he : isCopyInLine (echoLine uid gid) = false := by
    unfold isCopyInLine
    rw [echoLine_not_copy]
    rfl
  have hc : isCopyInLine (chownLine uid gid) = false := by
    unfold isCopyInLine
    rw [chownLine_not_copy]
    rfl
  have h0 : isCopyInLine "" = false := by decide
  have h4 : isCopyInLine "USER builduser" = false := by decide
  have h5 : isCopyInLine "WORKDIR /usr/src" = false := by decide
  have h6 : isCopyInLine "ENTRYPOINT /usr/bin/gokr-build-kernel" = false := by decide
  simp [tailLines, List.filter, he, hc, h0, h4, h5, h6]

/-- C7: extracting the copy-in lines from the rendered recipe recovers the
declared patch list, one line per patch, in declaration order. -/
theorem recipe_copy_lines_match_declared_order (patches : List String)
    (uid gid : String) (hp : ∀ p ∈ patches, strEnds ".patch" p = true) :
    (renderLines patches uid gid).filter isCopyInLine = patches.map copyLine := by
  unfold renderLines
  rw [List.filter_append, List.filter_append]
  have h1 : headerLines.filter isCopyInLine = [] := by decide
  have h3 : (patches.map copyLine).filter isCopyInLine = patches.map copyLine := by
    refine List.filter_eq_self.mpr ?_
    intro l hl
    obtain ⟨p, hpmem, rfl⟩ := List.mem_map.mp hl
    exact copyLine_isCopyIn p (hp p hpmem)
  rw [h1, h3, tailLines_filter_empty]
  simp

/-- C7 witness: the declared patch list of kernel.go satisfies the hypothesis of
the theorem, and the extraction recovers it exactly. -/
theorem recipe_copy_lines_witness :
    (renderLines patchFiles "1000" "1000").filter isCopyInLine =
      patchFiles.map copyLine :=
  recipe_copy_lines_match_declared_order patchFiles "1000" "1000" (by decide)

theorem tailLines_getElem_eq (uid gid uid' gid' : String) (j : Nat)
    (h1 : j ≠ 1) (h2 : j ≠ 2) :
    (tailLines uid gid ++ [""])[j]? = (tailLines uid' gid' ++ [""])[j]? := by
  match j, h1, h2 with
  | 0, _, _ => rfl
  | 1, h1, _ => exact absurd rfl h1
  | 2, _, h2 => exact absurd rfl h2
  | (m+3), _, _ => rfl

/-- C4 counterexample: rendering with uid/gid 1000 versus 1001 changes TWO
physical lines of the output (the echo line and its chown continuation
line), not a single line. -/
theorem uid_change_touches_two_lines :
    (renderLines [] "1000" "1000")[7]? ≠ (renderLines [] "1001" "1001")[7]? ∧
    (renderLines [] "1000" "1000")[8]? ≠ (renderLines [] "1001" "1001")[8]? := by
  decide

/-- C4 amended: rendering is pure and deterministic, and two renderings that
differ only in uid/gid agree on every line except the two physical lines of
the user-creation RUN instruction (indices `patches.length + 7` and
`patches.length + 8` of the rendered line list). -/
theorem render_deterministic_and_localized (patches : List String)
    (uid gid uid' gid' : String) :
    dockerFileRender patches uid gid = dockerFileRender patches uid gid ∧
    ∀ i : Nat, i ≠ patches.length + 7 → i ≠ patches.length + 8 →
      (renderLines patches uid gid)[i]? = (renderLines patches uid' gid')[i]? := by
  refine ⟨rfl, ?_⟩
  intro i h7 h8
  have hpre : (headerLines ++ patches.map copyLine).length = 6 + patches.length := by
    simp [headerLines]
    omega
  unfold renderLines
  by_cases hi : i < 6 + patches.length
  · have hlen : i < (headerLines ++ patches.map copyLine).length := by
      rw [hpre]; exact hi
    rw [List.getElem?_append_left hlen, List.getElem?_append_left hlen]
  · have hlen : (headerLines ++ patches.map copyLine).length ≤ i := by
      rw [hpre]; omega
    rw [List.getElem?_append_right hlen, List.getElem?_append_right hlen, hpre]
    exact tailLines_getElem_eq uid gid uid' gid' _ (by omega) (by omega)

/-- C4 amended witness: at the declared patch list and concrete uid/gid pairs,
line 0 of the two renderings agrees, as the theorem states. -/
theorem render_localized_witness :
    (renderLines patchFiles "1000" "1000")[0]? =
      (renderLines patchFiles "1001" "1001")[0]? :=
  (render_deterministic_and_localized patchFiles "1000" "1000" "1001" "1001").2
    0 (by decide) (by decide)

/-- The order in which `applyPatches` of the build drivers feeds patch files
to the external patch tool: `filepath.Glob` collects the names matching the
patch pattern from the working directory and reports them sorted bytewise
ascending, and the loop pipes them to the tool in that order. -/
def applyPatchesOrder (cwdFiles : List String) : List String :=
  sortStr (cwdFiles.filter matchesPatchGlob)

/-- Per-run outcomes of the external calls made by the kernel build driver
`cmd/gokr-build-kernel/build.go`. -/
structure DEnv where
  createOk : Bool
  httpStatus : Option Nat
  bodyCopyOk : Bool
  closeOk : Bool
  untarOk : Bool
  cwdFiles : List String
  patchToolOk : String → Bool
  chdirOk : Bool
  defconfigOk : Bool
  configAppendOk : Bool
  olddefconfigOk : Bool
  makeOk : Bool
  imageBuilt : Bool
  dtbBuilt : Bool

/-- The pipeline stages of the driver, in declared order.  `copyOut` is the
final stage that copies artifacts into the shared result directory. -/
inductive DStage
  | fetch
  | unpack
  | patch
  | configure
  | compile
  | copyOut
deriving DecidableEq, Repr

inductive DErr
  | fetchFailed
  | unpackFailed
  | patchFailed
  | chdirFailed
  | configureFailed
  | compileFailed
  | exportFailed
deriving DecidableEq, Repr

/-- Model of `downloadKernel`: create the destination file, issue the GET,
reject on transport error (`httpStatus = none`) or a status other than 200,
then copy the body and close.  Returns `true` when the Go function returns a
non-nil error. -/
def downloadKernel (e : DEnv) : Bool :=
  if !e.createOk then true
  else
    match e.httpStatus with
    | none => true
    | some code =>
      if code ≠ 200 then true
      else if !e.bodyCopyOk then true
      else !e.closeOk

/-- Model of the patch loop body: invoke the tool on each patch in the given
order, stopping at (and including) the first failing invocation.  Returns
the patch names the tool was invoked on and whether all succeeded. -/
def patchRun : List String → (String → Bool) → List String × Bool
  | [], _ => ([], true)
  | p :: ps, ok =>
    if ok p then
      let r := patchRun ps ok
      (p :: r.1, r.2)
    else ([p], false)

/-- Model of the driver `main`: the stages started, the terminal error, and
the sequence of patch-tool invocations.  Each `log.Fatal` stops the pipeline
immediately. -/
def dmain (e : DEnv) : List DStage × Option DErr × List String :=
  if downloadKernel e then ([.fetch], some .fetchFailed, [])
  else if !e.untarOk then ([.fetch, .unpack], some .unpackFailed, [])
  else
    let pr := patchRun (applyPatchesOrder e.cwdFiles) e.patchToolOk
    if !pr.2 then ([.fetch, .unpack, .patch], some .patchFailed, pr.1)
    else if !e.chdirOk then ([.fetch, .unpack, .patch], some .chdirFailed, pr.1)
    else if !e.defconfigOk then
      ([.fetch, .unpack, .patch, .configure], some .configureFailed, pr.1)
    else if !e.configAppendOk then
      ([.fetch, .unpack, .patch, .configure], some .configureFailed, pr.1)
    else if !e.olddefconfigOk then
      ([.fetch, .unpack, .patch, .configure], some .configureFailed, pr.1)
    else if !e.makeOk then
      ([.fetch, .unpack, .patch, .configure, .compile], some .compileFailed, pr.1)
    else if !e.imageBuilt then
      ([.fetch, .unpack, .patch, .configure, .compile, .copyOut],
        some .exportFailed, pr.1)
    else if !e.dtbBuilt then
      ([.fetch, .unpack, .patch, .configure, .compile, .copyOut],
        some .exportFailed, pr.1)
    else
      ([.fetch, .unpack, .patch, .configure, .compile, .copyOut], none, pr.1)

/-- The artifact filenames the kernel build driver writes into the shared
result directory (the basenames of the two copyFile destinations under
the bind-mount target). -/
def driverWrites : List String := ["vmlinuz", "rpi-3-b.dtb"]

/-- C5: when the GET suffers a transport error or returns any status other
than 200, the driver run ends in an error with only the fetch stage started:
unpack, patch, configure and compile never execute. -/
theorem fetch_failure_stops_pipeline (e : DEnv) (h1 : e.createOk = true)
    (h2 : e.httpStatus ≠ some 200) :
    dmain e = ([DStage.fetch], some DErr.fetchFailed, []) := by
  have hd : downloadKernel e = true := by
    unfold downloadKernel
    rw [h1]
    cases hs : e.httpStatus with
    | none => rfl
    | some code =>
      have hc : code ≠ 200 := by
        intro h
        exact h2 (by rw [hs, h])
      simp [hc]
  unfold dmain
  rw [hd]
  rfl

/-- C5 witness: a run whose GET came back 404. -/
theorem fetch_failure_stops_pipeline_witness :
    dmain ⟨true, some 404, true, true, true, patchFiles, fun _ => true,
      true, true, true, true, true, true, true⟩ =
      ([DStage.fetch], some DErr.fetchFailed, []) :=
  fetch_failure_stops_pipeline _ rfl (by decide)

/-- An all-success driver environment whose working directory holds exactly
the declared patch files. -/
def dEnvDeclared : DEnv :=
  ⟨true, some 200, true, true, true, patchFiles, fun _ => true,
    true, true, true, true, true, true, true⟩

/-- C2 counterexample: on a successful run over the declared patch list, the
second patch-tool invocation reads the logo patch, while the second patch of
the declared list is the spidev patch — the driver does not follow the
declared order. -/
theorem patch_order_differs_from_declared :
    (dmain dEnvDeclared).2.2 ≠ patchFiles ∧
    (dmain dEnvDeclared).2.2[1]? = some "0001-gokrazy-logo.patch" ∧
    patchFiles[1]? = some "0201-enable-spidev.patch" := by
  decide

/-- C2 amended: the driver applies the patch files present in its working
directory in bytewise-sorted filename order — the glob order — not in the
declared list order: the invocation sequence is sorted and is a permutation
of the matching files. -/
theorem patches_applied_in_sorted_order (files : List String) :
    List.Sorted (fun a b => goStrLe a b = true) (applyPatchesOrder files) ∧
    List.Perm (applyPatchesOrder files) (files.filter matchesPatchGlob) := by
  constructor
  · exact List.sorted_insertionSort _ _
  · exact List.perm_insertionSort _ _

/-- The arguments after the program name in the compile-stage make invocation of the
kernel driver (`make Image.gz dtbs -j8`). -/
def kernelCompileMakeArgs : List String := ["Image.gz", "dtbs", "-j8"]

/-- Numeric value of a single decimal digit character. -/
def digitVal? (c : Char) : Option Nat :=
  if '0' ≤ c ∧ c ≤ '9' then some (c.toNat - 48) else none

/-- Decimal parse of a character list. -/
def charsToNat? (cs : List Char) : Option Nat :=
  if cs.isEmpty then none
  else
    cs.foldl
      (fun acc c =>
        match acc, digitVal? c with
        | some n, some d => some (n * 10 + d)
        | _, _ => none)
      (some 0)

/-- The parallelism degree carried by one make argument of the form used by
the drivers (a jobs flag followed immediately by a decimal count). -/
def parseJobsArg (s : String) : Option Nat :=
  if strLeads "-j" s then charsToNat? (s.data.drop 2) else none

/-- The parallelism degree of a make invocation: that of its first jobs
argument. -/
def jobsOfArgs (args : List String) : Option Nat := args.findSome? parseJobsArg

/-- The parallelism degree the uboot driver passes: `runtime.NumCPU()`
rendered into the jobs argument. -/
def ubootCompileJobs (numCPU : Nat) : Nat := numCPU

/-- C6 counterexample: the compile stage of the kernel driver always passes a jobs
degree of 8, which exceeds the available CPU count on a machine with a
single CPU. -/
theorem kernel_jobs_exceed_one_cpu :
    jobsOfArgs kernelCompileMakeArgs = some 8 ∧ ¬ (8 ≤ 1) := by
  decide

/-- C6 amended: the compile parallelism of the uboot driver equals (hence is
bounded by) the available CPU count, while the compile stage of the kernel
driver passes the fixed degree 8 regardless of the machine. -/
theorem compile_jobs_amended :
    (∀ numCPU : Nat, ubootCompileJobs numCPU ≤ numCPU) ∧
    jobsOfArgs kernelCompileMakeArgs = some 8 := by
  exact ⟨fun n => le_refl n, by decide⟩

/-- Contents and mode bits of one file. -/
structure FileData where
  bytes : List Nat
  mode : Nat
deriving DecidableEq, Repr

/-- A flat filesystem: an association list from path to file data, newest
entry first. -/
abbrev FS := List (String × FileData)

/-- Create or overwrite a file (newest entry shadows older ones). -/
def fsSet (fs : FS) (name : String) (f : FileData) : FS := (name, f) :: fs

/-- Look a file up by path. -/
def fsGet (fs : FS) (name : String) : Option FileData := fs.lookup name

/-- Model of the `copyFile` helper, byte-identical in
`cmd/gokr-rebuild-kernel/kernel.go`, `cmd/gokr-build-kernel/build.go` and
`cmd/gokr-build-uboot/build.go`: `os.Create(dest)` first (truncating any
existing destination to an empty file with the default creation mode 0666 =
438), `os.Open(src)` only afterwards (`readable` models whether the open
succeeds on an existing file), then copy the bytes, stat the source and
transfer its mode.  `createOk` models failure of the initial create, which
leaves the filesystem untouched.  Mid-copy read errors are not modelled.
Returns the filesystem and whether the function returned a non-nil error. -/
def copyFile (createOk : Bool) (readable : String → Bool) (fs : FS)
    (dest src : String) : FS × Bool :=
  if !createOk then (fs, true)
  else
    let fs1 := fsSet fs dest ⟨[], 438⟩
    match (if readable src then fsGet fs1 src else none) with
    | none => (fs1, true)
    | some f =>
      let fs2 := fsSet fs1 dest ⟨f.bytes, 438⟩
      let fs3 := fsSet fs2 dest ⟨f.bytes, f.mode⟩
      (fs3, false)

/-- C9: when the source is missing or unreadable, `copyFile` reports an error
but has already truncated the destination: afterwards the destination exists
with zero-length contents, whatever it previously held. -/
theorem copyFile_truncates_dest_on_missing_src (fs : FS)
    (readable : String → Bool) (dest src : String) (hne : src ≠ dest)
    (hsrc : readable src = false ∨ fsGet fs src = none) :
    (copyFile true readable fs dest src).2 = true ∧
    fsGet (copyFile true readable fs dest src).1 dest = some ⟨[], 438⟩ := by
  have hdd : (dest == dest) = true := beq_self_eq_true dest
  cases hsrc with
  | inl h =>
    simp [copyFile, h, fsSet, fsGet, List.lookup, hdd]
  | inr h =>
    have hsd : (src == dest) = false := beq_eq_false_iff_ne.mpr hne
    have h' : List.lookup src fs = none := h
    by_cases hr : readable src
    · simp [copyFile, hr, fsSet, fsGet, List.lookup, hsd, hdd, h']
    · simp [copyFile, hr, fsSet, fsGet, List.lookup, hdd]

/-- C9 witness: copying a missing source over an existing non-empty artifact
fails and leaves the artifact as an empty file. -/
theorem copyFile_truncates_witness :
    (copyFile true (fun _ => true)
        [("bcm2710-rpi-3-b.dtb", ⟨[1, 2, 3], 420⟩)]
        "bcm2710-rpi-3-b.dtb" "missing.src").2 = true ∧
    fsGet (copyFile true (fun _ => true)
        [("bcm2710-rpi-3-b.dtb", ⟨[1, 2, 3], 420⟩)]
        "bcm2710-rpi-3-b.dtb" "missing.src").1 "bcm2710-rpi-3-b.dtb" =
      some ⟨[], 438⟩ :=
  copyFile_truncates_dest_on_missing_src
    [("bcm2710-rpi-3-b.dtb", ⟨[1, 2, 3], 420⟩)]
    (fun _ => true) "bcm2710-rpi-3-b.dtb" "missing.src"
    (by decide) (Or.inr (by decide))

/-- Why a run of the kernel.go orchestrator ended (None in `KState.reason`
means the run succeeded). -/
inductive KReason
  | engineNotFound
  | resolveFailed
  | tempDirFailed
  | goBuildFailed
  | findFailed (name : String)
  | copyPatchFailed
  | userFailed
  | dockerfileFailed
  | dockerBuildFailed
  | dockerRunFailed
  | copyOutFailed (name : String)
  | modulesFailed
deriving DecidableEq, Repr

/-- Observable outcome of one kernel.go orchestrator run. -/
structure KState where
  tmpCreated : Bool
  tmpRemoved : Bool
  reason : Option KReason
deriving DecidableEq, Repr

/-- Model of `getContainerExecutable`: probe podman then docker on the search
path, skipping a candidate whose lookup fails; resolve the symlinks of the
first hit, failing the whole probe if resolution fails; report the
engine-not-found error when no candidate is on the path. -/
def getContainerExecutable (lookPath resolve : String → Option String) :
    Except KReason String :=
  match lookPath "podman" with
  | some p =>
    match resolve p with
    | some r => Except.ok r
    | none => Except.error KReason.resolveFailed
  | none =>
    match lookPath "docker" with
    | some p =>
      match resolve p with
      | some r => Except.ok r
      | none => Except.error KReason.resolveFailed
    | none => Except.error KReason.engineNotFound

/-- The filenames the kernel.go `main` locates via `find` before building, in
call order: the declared patches, then the copy-out destinations, then the
module tree root. -/
def findNames : List String :=
  patchFiles ++
    ["vmlinuz", "bcm2710-rpi-3-b.dtb", "bcm2710-rpi-3-b-plus.dtb",
     "bcm2710-rpi-zero-2.dtb", "bcm2710-rpi-cm3.dtb", "bcm2711-rpi-4-b.dtb",
     "lib"]

/-- The source filenames, relative to the shared temporary directory, that
the kernel.go `main` copies out after the container run, in call order. -/
def copyOutNames : List String :=
  ["vmlinuz", "bcm2710-rpi-3-b.dtb", "bcm2710-rpi-zero-2-w.dtb",
   "bcm2710-rpi-3-b-plus.dtb", "bcm2710-rpi-cm3.dtb", "bcm2711-rpi-4-b.dtb"]

/-- Per-run outcomes of the external calls made by the kernel.go
orchestrator.  `tmpFiles` is the set of names present in the shared
temporary directory once the container has exited. -/
structure KEnv where
  lookPath : String → Option String
  resolve : String → Option String
  overrideExe : String
  tempDirOk : Bool
  goBuildOk : Bool
  findOk : String → Bool
  copyPatchesOk : Bool
  userOk : Bool
  dockerfileOk : Bool
  dockerBuildOk : Bool
  dockerRunOk : Bool
  tmpFiles : List String
  modulesOk : Bool

/-- Model of the kernel.go `main`.  Engine detection runs before the override
flag is consulted.  The removal of the temporary directory is only ever
performed by a deferred `os.RemoveAll`; every failure path goes through
`log.Fatal`, i.e. `os.Exit`, which skips deferred functions, so only the
path that returns normally removes the directory. -/
def kmain (e : KEnv) : KState :=
  match getContainerExecutable e.lookPath e.resolve with
  | Except.error r => ⟨false, false, some r⟩
  | Except.ok _ =>
    if !e.tempDirOk then ⟨false, false, some KReason.tempDirFailed⟩
    else if !e.goBuildOk then ⟨true, false, some KReason.goBuildFailed⟩
    else
      match findNames.find? (fun f => !e.findOk f) with
      | some f => ⟨true, false, some (KReason.findFailed f)⟩
      | none =>
        if !e.copyPatchesOk then ⟨true, false, some KReason.copyPatchFailed⟩
        else if !e.userOk then ⟨true, false, some KReason.userFailed⟩
        else if !e.dockerfileOk then ⟨true, false, some KReason.dockerfileFailed⟩
        else if !e.dockerBuildOk then ⟨true, false, some KReason.dockerBuildFailed⟩
        else if !e.dockerRunOk then ⟨true, false, some KReason.dockerRunFailed⟩
        else
          match copyOutNames.find? (fun f => !(e.tmpFiles.contains f)) with
          | some f => ⟨true, false, some (KReason.copyOutFailed f)⟩
          | none =>
            if !e.modulesOk then ⟨true, false, some KReason.modulesFailed⟩
            else ⟨true, true, none⟩

/-- A run in which the engine is found and the temporary directory is
created, but building the driver binary fails. -/
def kEnvBuildFail : KEnv :=
  ⟨fun _ => some "/usr/bin/podman", fun s => some s, "", true, false,
    fun _ => true, true, true, true, true, true, copyOutNames, true⟩

/-- C1 counterexample: a run that gets past creating the temporary directory
and then fails while building the driver binary exits with the directory
still present — `log.Fatal` skips the deferred removal. -/
theorem tmpdir_left_behind_on_build_failure :
    (kmain kEnvBuildFail).tmpCreated = true ∧
    (kmain kEnvBuildFail).tmpRemoved = false := by
  decide

/-- C1 amended: the temporary directory is removed exactly on the success
path; on every failure path after its creation the process exits through
`log.Fatal` without running the deferred removal, leaving the directory
behind. -/
theorem tmpdir_removed_iff_run_succeeds (e : KEnv) :
    (kmain e).tmpRemoved = true ↔ (kmain e).reason = none := by
  unfold kmain
  split
  · simp
  · split
    · simp
    · split
      · simp
      · split
        · simp
        · split
          · simp
          · split
            · simp
            · split
              · simp
              · split
                · simp
                · split
                  · simp
                  · split
                    · simp
                    · split
                      · simp
                      · simp

/-- C10: engine detection runs before the override flag is consulted, so when
neither candidate engine is on the search path the run dies with the
engine-not-found error no matter what the override flag holds. -/
theorem override_does_not_bypass_probe (e : KEnv)
    (hp : e.lookPath "podman" = none) (hd : e.lookPath "docker" = none) :
    kmain e = ⟨false, false, some KReason.engineNotFound⟩ := by
  unfold kmain getContainerExecutable
  rw [hp, hd]

/-- C10 witness: an empty search path together with an explicit docker
override still yields the engine-not-found failure. -/
theorem override_does_not_bypass_probe_witness :
    kmain ⟨fun _ => none, fun s => some s, "docker", true, true,
        fun _ => true, true, true, true, true, true, copyOutNames, true⟩ =
      ⟨false, false, some KReason.engineNotFound⟩ :=
  override_does_not_bypass_probe _ rfl rfl

/-- A run of the orchestrator in which every external step succeeds and the
container populated the shared directory with exactly the files the shipped
kernel build driver writes. -/
def kEnvDriverOutput : KEnv :=
  ⟨fun _ => some "/usr/bin/podman", fun s => some s, "", true, true,
    fun _ => true, true, true, true, true, true, driverWrites, true⟩

/-- C3 (code bug): the filename contract between the two programs is broken.
The first device-tree copy-out name of the orchestrator is not among the names
the driver writes, so even a run in which every external step succeeds and
the container exits successfully dies at the copy-out stage. -/
theorem artifact_name_contract_broken :
    (kmain kEnvDriverOutput).reason =
      some (KReason.copyOutFailed "bcm2710-rpi-3-b.dtb") ∧
    "bcm2710-rpi-3-b.dtb" ∈ copyOutNames ∧
    "bcm2710-rpi-3-b.dtb" ∉ driverWrites ∧
    "rpi-3-b.dtb" ∈ driverWrites ∧ "rpi-3-b.dtb" ∉ copyOutNames := by
  decide

/-- The ordered patch list declared in the signal-handling orchestrator
variant shipped with the repository. -/
def patchFilesSig : List String :=
  ["0001-Revert-add-index-to-the-ethernet-alias.patch",
   "0101-expose-UART0-ttyAMA0-on-GPIO-14-15-disable-UART1-tty.patch",
   "0102-expose-UART0-ttyAMA0-on-GPIO-14-15-disable-UART1-tty.patch",
   "0103-expose-UART0-ttyAMA0-on-GPIO-14-15-disable-UART1-tty.patch",
   "0104-bluetooth.patch",
   "0105-bluetooth-cm4.patch",
   "0201-enable-spidev.patch",
   "0001-gokrazy-logo.patch"]

/-- The filenames the signal-handling orchestrator variant locates via
`find`, in call order. -/
def sigFindNames : List String :=
  patchFilesSig ++
    ["vmlinuz", "bcm2710-rpi-3-b.dtb", "bcm2710-rpi-3-b-plus.dtb",
     "bcm2710-rpi-zero-2.dtb", "bcm2710-rpi-cm3.dtb", "bcm2711-rpi-4-b.dtb"]

/-- The source filenames, relative to the shared temporary directory, that
the signal-handling variant copies out after the container run, in call
order (it reads `bcm2710-rpi-3-b.dtb` twice: once for the 3B destination
and once, as a stand-in, for the Zero 2 W destination). -/
def sigCopyOutNames : List String :=
  ["vmlinuz", "bcm2710-rpi-3-b.dtb", "bcm2710-rpi-3-b.dtb",
   "bcm2710-rpi-3-b-plus.dtb", "bcm2710-rpi-cm3.dtb", "bcm2711-rpi-4-b.dtb"]

/-- Per-run outcomes of the external calls made by the signal-handling
orchestrator variant.  `interrupted` records that an interrupt signal
arrived while the run-container child was blocked, in which case the signal
goroutine cancels the command context and the child is killed. -/
structure SEnv where
  lookPath : String → Option String
  resolve : String → Option String
  overrideExe : String
  tempDirOk : Bool
  goInstallOk : Bool
  findOk : String → Bool
  copyPatchesOk : Bool
  userOk : Bool
  dockerfileOk : Bool
  dockerBuildOk : Bool
  interrupted : Bool
  dockerRunOk : Bool
  tmpFiles : List String

/-- Observable outcome of one run of the signal-handling orchestrator
variant. -/
structure SState where
  tmpCreated : Bool
  tmpRemoved : Bool
  teardownCount : Nat
  exitCode : Nat
deriving DecidableEq, Repr

/-- Model of the `main` of the signal-handling variant.  Its `fatal` helper
records the error and RETURNS (unlike `log.Fatal`), so deferred functions
run on every failure path after their registration: the teardown closure
(registered after the run-container command is built; it issues one
container stop exactly when the child process did not exit successfully),
then the temporary-directory removal, then the deferred exit with code 1.
One quirk of the source is kept: a failed driver-binary build calls `fatal`
without returning, so the run continues and still exits 1 at the end. -/
def smain (e : SEnv) : SState :=
  match getContainerExecutable e.lookPath e.resolve with
  | Except.error _ => ⟨false, false, 0, 1⟩
  | Except.ok _ =>
    if !e.tempDirOk then ⟨false, false, 0, 1⟩
    else if (sigFindNames.find? (fun f => !e.findOk f)).isSome then ⟨true, true, 0, 1⟩
    else if !e.copyPatchesOk then ⟨true, true, 0, 1⟩
    else if !e.userOk then ⟨true, true, 0, 1⟩
    else if !e.dockerfileOk then ⟨true, true, 0, 1⟩
    else if !e.dockerBuildOk then ⟨true, true, 0, 1⟩
    else if e.interrupted || !e.dockerRunOk then ⟨true, true, 1, 1⟩
    else if (sigCopyOutNames.find? (fun f => !(e.tmpFiles.contains f))).isSome then
      ⟨true, true, 0, 1⟩
    else ⟨true, true, 0, if e.goInstallOk then 0 else 1⟩

/-- C8: when an interrupt arrives while the orchestrator is blocked on the
run-container child, the child invocation is cancelled and fails, the
teardown closure issues its best-effort container stop exactly once, the
deferred removal still deletes the temporary directory, and the process
exits with the terminal error code. -/
theorem interrupt_teardown_cleanup (e : SEnv) (exe : String)
    (h1 : getContainerExecutable e.lookPath e.resolve = Except.ok exe)
    (h2 : e.tempDirOk = true) (h3 : ∀ f, e.findOk f = true)
    (h4 : e.copyPatchesOk = true) (h5 : e.userOk = true)
    (h6 : e.dockerfileOk = true) (h7 : e.dockerBuildOk = true)
    (h8 : e.interrupted = true) :
    smain e = ⟨true, true, 1, 1⟩ := by
  have hf : sigFindNames.find? (fun f => !e.findOk f) = none :=
    List.find?_eq_none.mpr (fun x _ => by simp [h3])
  unfold smain
  rw [h1]
  simp [h2, hf, h4, h5, h6, h7, h8]

/-- C8 witness: a concrete interrupted run with every preceding step
succeeding. -/
theorem interrupt_teardown_cleanup_witness :
    smain ⟨fun _ => some "/usr/bin/podman", fun s => some s, "", true, true,
        fun _ => true, true, true, true, true, true, true, []⟩ =
      ⟨true, true, 1, 1⟩ :=
  interrupt_teardown_cleanup _ "/usr/bin/podman" rfl rfl (fun _ => rfl)
    rfl rfl rfl rfl rfl
